import Mathlib

/-!
Verification development for the `enterprise-subsidy` redemption engine
(`enterprise_subsidy/apps/subsidy/models.py` and
`enterprise_subsidy/apps/api/v1/views/content_metadata.py`).

The engine's Python code is embedded shallowly: pure functions become Lean
functions, database mutation becomes explicit ledger-state passing, raised
exceptions become `Except` values.  External collaborators that are not part
of the repository sources (the `openedx_ledger` storage API, the enterprise
catalog client and the enrollment client) are modelled from the published
collaborator contracts; each such definition carries a doc comment saying so.
-/

/-! ## A model of Python `float` arithmetic (IEEE-754 binary64)

`Subsidy.price_for_content` computes `int(float(price) * CENTS_PER_DOLLAR)`
(`subsidy/models.py`, line 146).  To settle numerical claims about that line
we model binary64 values exactly: a float is a dyadic number `m * 2^k`, and
every operation rounds to 53 significant bits with round-to-nearest,
ties-to-even, exactly as IEEE-754 prescribes.  All arithmetic is over `ℕ`/`ℤ`
so that concrete instances evaluate inside the kernel.  The model covers the
normal range, which contains every price involved; subnormals and overflow
are outside the model.
-/

/-- Fuel-driven floor of the base-2 logarithm of a natural number. -/
def log2floorAux : ℕ → ℕ → ℕ
  | 0, _ => 0
  | fuel + 1, n => if n < 2 then 0 else log2floorAux fuel (n / 2) + 1

/-- `natLog2floor n` is `⌊log₂ n⌋` for `n ≥ 1` (and `0` at `0`). -/
def natLog2floor (n : ℕ) : ℕ := log2floorAux n n

/-- Fuel-driven search for the smallest `j` with `d ≤ n * 2^j`. -/
def negExpAux : ℕ → ℕ → ℕ → ℕ
  | 0, _, _ => 0
  | fuel + 1, n, d => if d ≤ n then 0 else negExpAux fuel (2 * n) d + 1

/-- For `1 ≤ n < d`, the smallest `j ≥ 1` with `d ≤ n * 2^j`; then
`⌊log₂ (n/d)⌋ = -j`. -/
def negExp (n d : ℕ) : ℕ := negExpAux d n d

/-- Round the nonnegative rational `N / D` to the nearest integer,
ties to even. -/
def roundHalfEvenDiv (N D : ℕ) : ℕ :=
  let q := N / D
  let r := N % D
  if 2 * r < D then q
  else if D < 2 * r then q + 1
  else if q % 2 = 0 then q else q + 1

/-- A binary64 value represented exactly: the dyadic number `m * 2^k`. -/
structure PyFloat where
  m : ℤ
  k : ℤ
deriving DecidableEq, Repr

/-- Correctly round the rational `num / den` (with `den ≠ 0`) to binary64:
53 significant bits, round-to-nearest, ties-to-even.  This is what Python's
`float(s)` does to the exact decimal value of the string `s`. -/
def roundRatToDouble (num : ℤ) (den : ℕ) : PyFloat :=
  if num = 0 then ⟨0, 0⟩
  else
    let n := num.natAbs
    let e : ℤ := if den ≤ n then (natLog2floor (n / den) : ℤ) else -(negExp n den : ℤ)
    let N : ℕ := if e ≤ 52 then n * 2 ^ (52 - e).toNat else n
    let D : ℕ := if e ≤ 52 then den else den * 2 ^ (e - 52).toNat
    let m : ℕ := roundHalfEvenDiv N D
    ⟨if num < 0 then -(m : ℤ) else (m : ℤ), e - 52⟩

/-- Python `*` on two floats: the exact product, correctly rounded back to
binary64. -/
def pyMul (a b : PyFloat) : PyFloat :=
  let M : ℤ := a.m * b.m
  let K : ℤ := a.k + b.k
  if 0 ≤ K then roundRatToDouble (M * 2 ^ K.toNat) 1
  else roundRatToDouble M (2 ^ (-K).toNat)

/-- Python `int(x)` on a float: truncation toward zero. -/
def pyTruncToInt (x : PyFloat) : ℤ :=
  if 0 ≤ x.k then x.m * 2 ^ x.k.toNat
  else
    let d : ℕ := 2 ^ (-x.k).toNat
    if 0 ≤ x.m then (x.m.toNat / d : ℕ) else -((((-x.m).toNat / d : ℕ) : ℤ))

/-- A decimal number (the listed price string the catalog service returns),
kept exact as `num / den`. -/
structure Decimal where
  num : ℤ
  den : ℕ
deriving DecidableEq, Repr

/-- The numeric body of `Subsidy.price_for_content`
(`subsidy/models.py`, line 146): `int(float(price) * CENTS_PER_DOLLAR)` with
`CENTS_PER_DOLLAR = 100`.  Python promotes the integer `100` to the exact
float `100.0` before the multiplication. -/
def price_from_listed (price : Decimal) : ℤ :=
  pyTruncToInt (pyMul (roundRatToDouble price.num price.den) (roundRatToDouble 100 1))

example : price_from_listed ⟨14900, 100⟩ = 14900 := by decide
example : price_from_listed ⟨59949, 100⟩ = 59949 := by decide

/-! ## The data model

`Transaction`, `Ledger` and their storage API live in the external
`openedx_ledger` package (spec section 6 calls the ledger a trusted external
component); they are modelled here from the collaborator contract the spec
states.  `Subsidy` and all its methods are translated from
`enterprise_subsidy/apps/subsidy/models.py`.
-/

/-- Transaction states (`openedx_ledger.models.TransactionStateChoices`):
a created/pending state, the terminal committed state, and failed. -/
inductive TransactionState
  | created
  | pending
  | committed
  | failed
deriving DecidableEq, Repr

/-- An idempotency key.  `derived` models the deterministic key
`create_idempotency_key_for_transaction(ledger, quantity, learner_id=...,
content_key=..., subsidy_access_policy_uuid=...)` built from exactly those
inputs (spec section 4.2, step 3); `supplied` models a caller-provided key.
Constructor injectivity models determinism: identical inputs collide on the
same key. -/
inductive IdempotencyKey
  | derived (ledger_id : ℕ) (quantity : ℤ) (learner_id : ℕ) (content_key : String)
      (subsidy_access_policy_uuid : ℕ)
  | supplied (value : String)
deriving DecidableEq, Repr

/-- One ledger transaction row (`openedx_ledger.models.Transaction`):
signed quantity in minor units, unique idempotency key, state, the learner
and content the row is for, the policy that requested it, and the optional
external reference pair filled in at commit time. -/
structure Transaction where
  idempotency_key : IdempotencyKey
  quantity : ℤ
  state : TransactionState
  lms_user_id : Option ℕ
  content_key : Option String
  subsidy_access_policy_uuid : Option ℕ
  reference_id : Option String
  reference_type : Option String
deriving DecidableEq, Repr

/-- The append-only ledger bound to a subsidy: an id (used in derived
idempotency keys) and its transaction rows in insertion order. -/
structure Ledger where
  id : ℕ
  transactions : List Transaction
deriving DecidableEq, Repr

/-- Modelled from the spec: `ledger.balance()` returns the current signed
sum of committed transactions (spec section 6, ledger storage contract; a
transaction only counts toward balance once committed, section 3). -/
def Ledger.balance (l : Ledger) : ℤ :=
  ((l.transactions.filter (fun t => t.state == TransactionState.committed)).map
    (fun t => t.quantity)).sum

/-- Modelled from the spec: `transaction.save()` persists state changes of a
row (spec section 6).  Rows are addressed by their unique idempotency key. -/
def Ledger.saveTransaction (l : Ledger) (tx : Transaction) : Ledger :=
  { l with
    transactions := l.transactions.map
      (fun t => if t.idempotency_key == tx.idempotency_key then tx else t) }

/-- Modelled from the spec: `openedx_ledger.utils
.create_idempotency_key_for_transaction`, deterministic in
`{ledger id, quantity, learner id, content key, policy id}`
(spec section 4.2, step 3). -/
def create_idempotency_key_for_transaction (ledger_id : ℕ) (quantity : ℤ)
    (learner_id : ℕ) (content_key : String) (subsidy_access_policy_uuid : ℕ) :
    IdempotencyKey :=
  IdempotencyKey.derived ledger_id quantity learner_id content_key
    subsidy_access_policy_uuid

/-- Modelled from the spec: `openedx_ledger.api.create_transaction` is an
atomic upsert on the idempotency key — if a row with the key already exists
the storage layer returns the existing row rather than erroring (spec
section 4.2 step 4 and section 6); otherwise it appends a new row "with a
'created' state" (docstring of `Subsidy.create_transaction`,
`subsidy/models.py` lines 160-162). -/
def ledger_create_transaction (l : Ledger) (idempotency_key : IdempotencyKey)
    (quantity : ℤ) (lms_user_id : ℕ) (content_key : String)
    (subsidy_access_policy_uuid : ℕ) : Transaction × Ledger :=
  match l.transactions.find? (fun t => t.idempotency_key == idempotency_key) with
  | some t => (t, l)
  | none =>
    let t : Transaction :=
      { idempotency_key := idempotency_key
        quantity := quantity
        state := TransactionState.created
        lms_user_id := some lms_user_id
        content_key := some content_key
        subsidy_access_policy_uuid := some subsidy_access_policy_uuid
        reference_id := none
        reference_type := none }
    (t, { l with transactions := l.transactions ++ [t] })

/-- `OCM_ENROLLMENT_REFERENCE_TYPE` (`subsidy/models.py`, line 36). -/
def OCM_ENROLLMENT_REFERENCE_TYPE : String := "enterprise_fufillment_source_uuid"

/-- The `Subsidy` model (`subsidy/models.py`).  Fields not consulted by any
verified operation (title, unit, provenance reference pair) are omitted;
`get_course_price` stands for the external catalog client's
`get_course_price(enterprise_customer_uuid, content_key)`, which returns the
listed decimal price (modelled from the spec, section 4.1 / 6, since the
client is an external collaborator). -/
structure Subsidy where
  starting_balance : ℤ
  ledger : Ledger
  enterprise_customer_uuid : ℕ
  active_datetime : Option ℤ
  expiration_datetime : Option ℤ
  internal_only : Bool
  get_course_price : String → Decimal

/-- `Subsidy.price_for_content` (`subsidy/models.py`, lines 143-146):
`int(float(self.catalog_client.get_course_price(...)) * CENTS_PER_DOLLAR)`.
The `lru_cache` on the Python method only memoizes; the pure function models
the cached computation. -/
def Subsidy.price_for_content (s : Subsidy) (content_key : String) : ℤ :=
  price_from_listed (s.get_course_price content_key)

/-- `Subsidy.current_balance` (`subsidy/models.py`, lines 148-149). -/
def Subsidy.current_balance (s : Subsidy) : ℤ :=
  s.ledger.balance

/-- `Subsidy.all_transactions` (`subsidy/models.py`, lines 315-318). -/
def Subsidy.all_transactions (s : Subsidy) : List Transaction :=
  s.ledger.transactions

/-- `Subsidy.transactions_for_learner_and_content`
(`subsidy/models.py`, lines 326-330): filter on both identifiers. -/
def Subsidy.transactions_for_learner_and_content (s : Subsidy) (lms_user_id : ℕ)
    (content_key : String) : List Transaction :=
  s.all_transactions.filter
    (fun t => t.lms_user_id == some lms_user_id && t.content_key == some content_key)

/-- `Subsidy.get_redemption` (`subsidy/models.py`, lines 299-313): the first
transaction for the learner/content pair whose state is committed, if any. -/
def Subsidy.get_redemption (s : Subsidy) (learner_id : ℕ) (content_key : String) :
    Option Transaction :=
  ((s.transactions_for_learner_and_content learner_id content_key).filter
    (fun t => t.state == TransactionState.committed)).head?

/-- `Subsidy.is_redeemable` (`subsidy/models.py`, lines 282-297):
`redeemable = self.current_balance() >= content_price`, returning the pair
`(redeemable, content_price)`. -/
def Subsidy.is_redeemable (s : Subsidy) (content_key : String) : Bool × ℤ :=
  let content_price := s.price_for_content content_key
  let redeemable := decide (s.current_balance ≥ content_price)
  (redeemable, content_price)

/-- Python truthiness of an optional string (`if reference_id:`): `None` and
the empty string are falsy. -/
def truthyStr : Option String → Bool
  | none => false
  | some s => !s.isEmpty

/-- `Subsidy.commit_transaction` (`subsidy/models.py`, lines 173-190): if a
truthy `reference_id` comes without a truthy `reference_type`, raise
`ValueError` before touching the row; otherwise set the reference pair (when
given), set the state to committed and save.  The ledger argument models the
database the mutated row is saved into. -/
def Subsidy.commit_transaction (ledger : Ledger) (ledger_transaction : Transaction)
    (reference_id reference_type : Option String) :
    Except String (Ledger × Transaction) :=
  if truthyStr reference_id then
    if truthyStr reference_type then
      let tx : Transaction :=
        { ledger_transaction with
          reference_id := reference_id
          reference_type := reference_type
          state := TransactionState.committed }
      Except.ok (ledger.saveTransaction tx, tx)
    else
      Except.error "A reference_id was provided without a reference_type."
  else
    let tx : Transaction := { ledger_transaction with state := TransactionState.committed }
    Except.ok (ledger.saveTransaction tx, tx)

/-- `Subsidy.rollback_transaction` (`subsidy/models.py`, lines 192-194): the
body is `pass` — a no-op that leaves the ledger untouched. -/
def Subsidy.rollback_transaction (ledger : Ledger) (_ledger_transaction : Transaction) :
    Ledger :=
  ledger

/-- The `try/except` block of `Subsidy._create_redemption`
(`subsidy/models.py`, lines 269-280), factored over the already-created
pending row: call the enrollment client; on success commit the row with the
returned reference id and the OCM reference type; on any raised error call
`rollback_transaction` and re-raise (the error result carries the database
state at the time of the raise). -/
def redemption_fulfillment_step (learner_id : ℕ) (content_key : String)
    (enroll : ℕ → String → Transaction → Except String String)
    (created : Transaction × Ledger) : Except String Transaction × Ledger :=
  let ledger_transaction := created.1
  let ledger1 := created.2
  match enroll learner_id content_key ledger_transaction with
  | Except.error exc =>
    (Except.error exc, Subsidy.rollback_transaction ledger1 ledger_transaction)
  | Except.ok reference_id =>
    match Subsidy.commit_transaction ledger1 ledger_transaction
        (some reference_id) (some OCM_ENROLLMENT_REFERENCE_TYPE) with
    | Except.error exc =>
      (Except.error exc, Subsidy.rollback_transaction ledger1 ledger_transaction)
    | Except.ok committed => (Except.ok committed.2, committed.1)

/-- `Subsidy._create_redemption` (`subsidy/models.py`, lines 225-280):
derive the idempotency key when none is supplied (`Option.getD` models the
`if not idempotency_key:` default), create (or fetch) the pending row, then
run the enrollment-and-commit step.  The enrollment client
(`enterprise_client.enroll`) is an external collaborator passed in as a
function returning either a reference id or a raised error.  The returned
ledger is the database state after the call, also when an error is
re-raised. -/
def Subsidy.create_redemption (s : Subsidy) (learner_id : ℕ) (content_key : String)
    (subsidy_access_policy_uuid : ℕ) (idempotency_key : Option IdempotencyKey)
    (enroll : ℕ → String → Transaction → Except String String) :
    Except String Transaction × Ledger :=
  let quantity : ℤ := -1 * s.price_for_content content_key
  let key : IdempotencyKey := idempotency_key.getD
    (create_idempotency_key_for_transaction s.ledger.id quantity learner_id
      content_key subsidy_access_policy_uuid)
  redemption_fulfillment_step learner_id content_key enroll
    (ledger_create_transaction s.ledger key quantity learner_id content_key
      subsidy_access_policy_uuid)

/-- `Subsidy.redeem` (`subsidy/models.py`, lines 196-223): return the
existing committed redemption when there is one (`created=False`); otherwise
return `(None, False)` when not redeemable; otherwise run
`_create_redemption` and return `(transaction, True)`.  The final `if
transaction:` fallback of the source is covered by the `Except` result:
`_create_redemption` either returns a transaction or raises. -/
def Subsidy.redeem (s : Subsidy) (learner_id : ℕ) (content_key : String)
    (subsidy_access_policy_uuid : ℕ) (idempotency_key : Option IdempotencyKey)
    (enroll : ℕ → String → Transaction → Except String String) :
    Except String (Option Transaction × Bool) × Ledger :=
  match s.get_redemption learner_id content_key with
  | some existing_transaction => (Except.ok (some existing_transaction, false), s.ledger)
  | none =>
    if (s.is_redeemable content_key).1 = false then
      (Except.ok (none, false), s.ledger)
    else
      let result := s.create_redemption learner_id content_key subsidy_access_policy_uuid
        idempotency_key enroll
      match result.1 with
      | Except.error exc => (Except.error exc, result.2)
      | Except.ok tx => (Except.ok (some tx, true), result.2)

/-- A ledger is key-consistent when every row carrying a derived idempotency
key actually is the row those key inputs describe (the learner and content
baked into the key match the row's fields).  Every row the engine itself
creates has this shape (`_create_redemption` derives the key from the very
fields it stores), so this is an invariant of reachable ledgers. -/
def keyMatchesFields (t : Transaction) : Bool :=
  match t.idempotency_key with
  | IdempotencyKey.derived _ _ lrn ck _ =>
    t.lms_user_id == some lrn && t.content_key == some ck
  | IdempotencyKey.supplied _ => true

/-- See `keyMatchesFields`. -/
def Ledger.keyConsistent (l : Ledger) : Prop :=
  ∀ t ∈ l.transactions, keyMatchesFields t = true

instance (l : Ledger) : Decidable l.keyConsistent :=
  List.decidableBAll _ l.transactions

/-! ## Basic lemmas about the read path -/

/-- Whether an `Except` result is a success. -/
def exceptOk {ε α : Type} : Except ε α → Bool
  | Except.ok _ => true
  | Except.error _ => false

lemma head?_eq_of_ne_nil_of_all {α : Type} (l : List α) (a : α) (hne : l ≠ [])
    (hall : ∀ x ∈ l, x = a) : l.head? = some a := by
  cases l with
  | nil => exact absurd rfl hne
  | cons x xs =>
    have hx : x = a := hall x (by simp)
    simp [hx]

/-- The membership test `get_redemption` applies, as one predicate:
committed state and matching learner/content pair. -/
def redemptionPred (learner_id : ℕ) (content_key : String) (t : Transaction) : Bool :=
  t.state == TransactionState.committed &&
    (t.lms_user_id == some learner_id && t.content_key == some content_key)

/-- The double filter inside `get_redemption`, fused. -/
lemma get_redemption_filter_eq (s : Subsidy) (learner_id : ℕ) (content_key : String) :
    (s.transactions_for_learner_and_content learner_id content_key).filter
      (fun t => t.state == TransactionState.committed) =
    s.ledger.transactions.filter (redemptionPred learner_id content_key) := by
  simp only [Subsidy.transactions_for_learner_and_content, Subsidy.all_transactions,
    List.filter_filter]
  rfl

lemma redemptionPred_iff (learner_id : ℕ) (content_key : String) (t : Transaction) :
    redemptionPred learner_id content_key t = true ↔
    t.lms_user_id = some learner_id ∧ t.content_key = some content_key ∧
    t.state = TransactionState.committed := by
  simp only [redemptionPred, Bool.and_eq_true, beq_iff_eq]
  tauto

lemma get_redemption_eq_none_iff (s : Subsidy) (learner_id : ℕ) (content_key : String) :
    s.get_redemption learner_id content_key = none ↔
    ∀ t ∈ s.ledger.transactions,
      ¬(t.lms_user_id = some learner_id ∧ t.content_key = some content_key ∧
        t.state = TransactionState.committed) := by
  unfold Subsidy.get_redemption
  rw [get_redemption_filter_eq, List.head?_eq_none_iff, List.filter_eq_nil_iff]
  refine forall_congr' (fun t => imp_congr_right (fun _ => ?_))
  rw [redemptionPred_iff]

lemma get_redemption_eq_some_spec (s : Subsidy) (learner_id : ℕ) (content_key : String)
    (tx : Transaction) (h : s.get_redemption learner_id content_key = some tx) :
    tx ∈ s.ledger.transactions ∧ tx.lms_user_id = some learner_id ∧
    tx.content_key = some content_key ∧ tx.state = TransactionState.committed := by
  unfold Subsidy.get_redemption at h
  rw [get_redemption_filter_eq] at h
  have hmem : tx ∈ s.ledger.transactions.filter (redemptionPred learner_id content_key) := by
    rcases hcase : s.ledger.transactions.filter (redemptionPred learner_id content_key) with
      _ | ⟨x, xs⟩
    · rw [hcase] at h; simp at h
    · rw [hcase] at h
      simp only [List.head?_cons, Option.some.injEq] at h
      rw [← h]
      exact List.mem_cons_self x xs
  obtain ⟨hmem', hpred⟩ := List.mem_filter.mp hmem
  obtain ⟨h1, h2, h3⟩ := (redemptionPred_iff learner_id content_key tx).mp hpred
  exact ⟨hmem', h1, h2, h3⟩

/-! ## Claim theorems: the read path and the guard clauses -/

/-- C7: `price_for_content` converts the listed decimal price to integer
minor-currency units as `int(float(price) * 100)`: the listed price `149.00`
gives `14900`, and `599.49` gives `59949` (exact under the binary64 model:
`float("599.49") * 100` rounds to exactly `59949.0`, which truncates to
`59949`). -/
theorem price_for_content_conversion (s : Subsidy) (content_key : String) :
    (s.get_course_price content_key = ⟨14900, 100⟩ →
      s.price_for_content content_key = 14900) ∧
    (s.get_course_price content_key = ⟨59949, 100⟩ →
      s.price_for_content content_key = 59949) := by
  constructor <;> intro h <;> unfold Subsidy.price_for_content <;> rw [h] <;> decide

/-- C4: `is_redeemable` returns `(balance >= price, price)`: the boolean is
true exactly when the current balance is at least the resolved content price
(inclusive at equality, since `≥` includes it), and the computed price is
returned regardless of the boolean.  The embedding of `is_redeemable` is a
pure function of the subsidy state, reflecting that the source reads the
ledger balance and the cached price without writing anything. -/
theorem is_redeemable_boundary (s : Subsidy) (content_key : String) :
    ((s.is_redeemable content_key).1 = true ↔
      s.current_balance ≥ s.price_for_content content_key) ∧
    (s.is_redeemable content_key).2 = s.price_for_content content_key := by
  constructor
  · simp [Subsidy.is_redeemable]
  · rfl

/-- C5: `get_redemption` only ever returns a transaction whose state is
committed and whose learner id and content key match the arguments; when
every transaction for the pair is non-committed (pending/failed/created),
it returns none. -/
theorem get_redemption_committed_only (s : Subsidy) (learner_id : ℕ)
    (content_key : String) :
    (∀ t, s.get_redemption learner_id content_key = some t →
      t.state = TransactionState.committed ∧ t.lms_user_id = some learner_id ∧
      t.content_key = some content_key) ∧
    ((∀ t ∈ s.ledger.transactions, t.lms_user_id = some learner_id →
        t.content_key = some content_key → t.state ≠ TransactionState.committed) →
      s.get_redemption learner_id content_key = none) := by
  constructor
  · intro t h
    obtain ⟨_, h1, h2, h3⟩ := get_redemption_eq_some_spec s learner_id content_key t h
    exact ⟨h3, h1, h2⟩
  · intro h
    rw [get_redemption_eq_none_iff]
    intro t ht hc
    exact h t ht hc.1 hc.2.1 hc.2.2

/-! ## Concrete instances used as witnesses -/

/-- An initial committed deposit row funding the ledger. -/
def demoDeposit : Transaction :=
  { idempotency_key := IdempotencyKey.supplied "initial-deposit"
    quantity := 20000
    state := TransactionState.committed
    lms_user_id := none
    content_key := none
    subsidy_access_policy_uuid := none
    reference_id := none
    reference_type := none }

/-- A ledger holding only the initial deposit. -/
def demoLedger : Ledger := { id := 1, transactions := [demoDeposit] }

/-- A subsidy with balance 20000 whose catalog lists every content at
`149.00`. -/
def demoSubsidy : Subsidy :=
  { starting_balance := 20000
    ledger := demoLedger
    enterprise_customer_uuid := 10
    active_datetime := none
    expiration_datetime := none
    internal_only := false
    get_course_price := fun _ => ⟨14900, 100⟩ }

/-- Like `demoSubsidy` but every content is listed at `599.49`. -/
def demoExecEdSubsidy : Subsidy :=
  { demoSubsidy with get_course_price := fun _ => ⟨59949, 100⟩ }

/-- A committed redemption row for learner 1 and the demo course. -/
def demoCommittedTx : Transaction :=
  { idempotency_key := IdempotencyKey.derived 1 (-14900) 1 "course-v1:edX+DemoX" 7
    quantity := -14900
    state := TransactionState.committed
    lms_user_id := some 1
    content_key := some "course-v1:edX+DemoX"
    subsidy_access_policy_uuid := some 7
    reference_id := some "fulfillment-1"
    reference_type := some OCM_ENROLLMENT_REFERENCE_TYPE }

/-- `demoSubsidy` after learner 1 has redeemed the demo course. -/
def demoRedeemedSubsidy : Subsidy :=
  { demoSubsidy with ledger := { id := 1, transactions := [demoDeposit, demoCommittedTx] } }

/-- A subsidy whose balance (100) cannot cover the content price (14900). -/
def demoPoorSubsidy : Subsidy :=
  { demoSubsidy with
    starting_balance := 100
    ledger := { id := 2, transactions := [{ demoDeposit with quantity := 100 }] } }

/-- An enrollment client that always succeeds. -/
def demoOkEnroll : ℕ → String → Transaction → Except String String :=
  fun _ _ _ => Except.ok "fulfillment-9"

/-- An enrollment client that always raises. -/
def demoFailEnroll : ℕ → String → Transaction → Except String String :=
  fun _ _ _ => Except.error "enrollment failed"

/-- C7 witness: the two conversions at concrete subsidies. -/
theorem price_for_content_conversion_witness :
    demoSubsidy.price_for_content "course-v1:edX+DemoX" = 14900 ∧
    demoExecEdSubsidy.price_for_content "course-v1:edX+DemoX" = 59949 :=
  ⟨(price_for_content_conversion demoSubsidy "course-v1:edX+DemoX").1 rfl,
   (price_for_content_conversion demoExecEdSubsidy "course-v1:edX+DemoX").2 rfl⟩

/-- C5 witness: on a ledger holding a deposit and one committed redemption,
`get_redemption` returns that committed row, and its fields match. -/
theorem get_redemption_committed_only_witness :
    demoCommittedTx.state = TransactionState.committed ∧
    demoCommittedTx.lms_user_id = some 1 ∧
    demoCommittedTx.content_key = some "course-v1:edX+DemoX" :=
  (get_redemption_committed_only demoRedeemedSubsidy 1 "course-v1:edX+DemoX").1
    demoCommittedTx (by rfl)

/-! ## Claim theorems: the commit contract -/

/-- C3 counterexample: supplying a `reference_type` without a `reference_id`
is "exactly one of the pair supplied", yet `commit_transaction` does not
fail — it commits the transaction, silently ignoring the `reference_type`.
The source only raises when a `reference_id` comes without a
`reference_type` (`subsidy/models.py`, lines 184-186), not the other way
around. -/
theorem commit_reference_type_alone_not_rejected :
    exceptOk (Subsidy.commit_transaction demoLedger demoDeposit none (some "some-type"))
      = true ∧
    truthyStr (none : Option String) = false ∧ truthyStr (some "some-type") = true := by
  decide

/-- C3 (amended): `commit_transaction` fails with the `ValueError`
"A reference_id was provided without a reference_type." exactly when a
(truthy) `reference_id` is supplied without a (truthy) `reference_type`; the
error is raised before any mutation, so the transaction state is unchanged
(the `Except.error` result carries no updated ledger or row).  A
`reference_type` alone is accepted: the transaction commits with the
reference pair untouched. -/
theorem commit_transaction_reference_pair_contract (ledger : Ledger) (tx : Transaction)
    (reference_id reference_type : Option String) :
    (truthyStr reference_id = true → truthyStr reference_type = false →
      Subsidy.commit_transaction ledger tx reference_id reference_type =
        Except.error "A reference_id was provided without a reference_type.") ∧
    (truthyStr reference_id = false ∨ truthyStr reference_type = true →
      ∃ l' tx', Subsidy.commit_transaction ledger tx reference_id reference_type =
        Except.ok (l', tx') ∧ tx'.state = TransactionState.committed) := by
  constructor
  · intro h1 h2
    simp [Subsidy.commit_transaction, h1, h2]
  · intro h
    by_cases h1 : truthyStr reference_id = true
    · have h2 : truthyStr reference_type = true := by
        rcases h with h | h
        · rw [h1] at h; exact absurd h (by simp)
        · exact h
      have hstep : Subsidy.commit_transaction ledger tx reference_id reference_type =
          Except.ok (ledger.saveTransaction { tx with reference_id := reference_id, reference_type := reference_type, state := TransactionState.committed }, { tx with reference_id := reference_id, reference_type := reference_type, state := TransactionState.committed }) := by
        simp [Subsidy.commit_transaction, h1, h2]
      exact ⟨_, _, hstep, rfl⟩
    · have h1' : truthyStr reference_id = false := by simpa using h1
      have hstep : Subsidy.commit_transaction ledger tx reference_id reference_type =
          Except.ok (ledger.saveTransaction { tx with state := TransactionState.committed }, { tx with state := TransactionState.committed }) := by
        simp [Subsidy.commit_transaction, h1']
      exact ⟨_, _, hstep, rfl⟩

/-- C3 witness: a concrete `reference_id` without a `reference_type` is
rejected with the `ValueError` message. -/
theorem commit_transaction_reference_pair_contract_witness :
    Subsidy.commit_transaction demoLedger demoDeposit (some "ref-1") none =
      Except.error "A reference_id was provided without a reference_type." :=
  (commit_transaction_reference_pair_contract demoLedger demoDeposit
    (some "ref-1") none).1 (by decide) (by decide)

/-! ## Claim theorems: redeem guard clauses -/

/-- C6: with no existing committed redemption and `is_redeemable` false,
`redeem` returns `(None, False)` and the ledger is unchanged — no
transaction is created. -/
theorem redeem_not_redeemable_returns_none (s : Subsidy) (learner_id : ℕ)
    (content_key : String) (subsidy_access_policy_uuid : ℕ)
    (idempotency_key : Option IdempotencyKey)
    (enroll : ℕ → String → Transaction → Except String String)
    (h0 : s.get_redemption learner_id content_key = none)
    (h1 : (s.is_redeemable content_key).1 = false) :
    s.redeem learner_id content_key subsidy_access_policy_uuid idempotency_key enroll =
      (Except.ok (none, false), s.ledger) := by
  simp [Subsidy.redeem, h0, h1]

/-- C6 witness: a subsidy with balance 100 and price 14900. -/
theorem redeem_not_redeemable_returns_none_witness :
    demoPoorSubsidy.redeem 1 "course-v1:edX+DemoX" 7 none demoOkEnroll =
      (Except.ok (none, false), demoPoorSubsidy.ledger) :=
  redeem_not_redeemable_returns_none demoPoorSubsidy 1 "course-v1:edX+DemoX" 7 none
    demoOkEnroll (by rfl) (by decide)

/-- C9: the existing-redemption check matches only on (learner, content)
and ignores the policy id — `get_redemption` does not even take the policy
as an argument — so `redeem` with any policy id returns the existing
committed transaction with `created=False` and leaves the ledger unchanged
(no second transaction under the new policy id). -/
theorem redeem_existing_ignores_policy (s : Subsidy) (learner_id : ℕ)
    (content_key : String) (t : Transaction) (subsidy_access_policy_uuid : ℕ)
    (idempotency_key : Option IdempotencyKey)
    (enroll : ℕ → String → Transaction → Except String String)
    (h : s.get_redemption learner_id content_key = some t) :
    s.redeem learner_id content_key subsidy_access_policy_uuid idempotency_key enroll =
      (Except.ok (some t, false), s.ledger) := by
  simp [Subsidy.redeem, h]

/-- C9 witness: the committed row carries policy id 7, yet `redeem` with
policy id 999 returns it unchanged. -/
theorem redeem_existing_ignores_policy_witness :
    demoRedeemedSubsidy.redeem 1 "course-v1:edX+DemoX" 999 none demoOkEnroll =
      (Except.ok (some demoCommittedTx, false), demoRedeemedSubsidy.ledger) ∧
    demoCommittedTx.subsidy_access_policy_uuid = some 7 :=
  ⟨redeem_existing_ignores_policy demoRedeemedSubsidy 1 "course-v1:edX+DemoX"
    demoCommittedTx 999 none demoOkEnroll (by rfl), rfl⟩

/-! ## The write path: commit, create and redeem analysis -/

lemma exists_ok_of_exceptOk {ε α : Type} (e : Except ε α) (h : exceptOk e = true) :
    ∃ a, e = Except.ok a := by
  cases e with
  | ok a => exact ⟨a, rfl⟩
  | error _ => simp [exceptOk] at h

/-- Committing with the enrollment reference pair the engine passes
(`some r`, `some OCM_ENROLLMENT_REFERENCE_TYPE`) always succeeds, and the
committed row keeps the learner, content and idempotency key of the pending
row. -/
lemma commit_enroll_reference_ok (ledger : Ledger) (tx : Transaction) (r : String) :
    ∃ tx', Subsidy.commit_transaction ledger tx (some r) (some OCM_ENROLLMENT_REFERENCE_TYPE) =
        Except.ok (ledger.saveTransaction tx', tx') ∧
      tx'.state = TransactionState.committed ∧ tx'.lms_user_id = tx.lms_user_id ∧
      tx'.content_key = tx.content_key ∧ tx'.idempotency_key = tx.idempotency_key := by
  by_cases hr : r.isEmpty
  · have h1 : truthyStr (some r) = false := by simp [truthyStr, hr]
    exact ⟨{ tx with state := TransactionState.committed },
      by simp [Subsidy.commit_transaction, h1], rfl, rfl, rfl, rfl⟩
  · have h1 : truthyStr (some r) = true := by simp [truthyStr]; simpa using hr
    have h2 : truthyStr (some OCM_ENROLLMENT_REFERENCE_TYPE) = true := by decide
    exact ⟨{ tx with reference_id := some r, reference_type := some OCM_ENROLLMENT_REFERENCE_TYPE, state := TransactionState.committed },
      by simp [Subsidy.commit_transaction, h1, h2], rfl, rfl, rfl, rfl⟩

/-- After saving the committed row `tx'` over its pending version `ltx`,
the committed-redemption filter for the pair finds exactly copies of `tx'`:
nothing else in the ledger was a committed redemption of the pair (hypothesis
`hold`), and every row whose key matches became `tx'`. -/
lemma saveTransaction_filter_spec (ledger1 : Ledger) (ltx tx' : Transaction)
    (learner_id : ℕ) (content_key : String)
    (hmem : ltx ∈ ledger1.transactions)
    (hkeq : tx'.idempotency_key = ltx.idempotency_key)
    (hlms : tx'.lms_user_id = some learner_id)
    (hck : tx'.content_key = some content_key)
    (hstate : tx'.state = TransactionState.committed)
    (hold : ∀ v ∈ ledger1.transactions, v.idempotency_key ≠ ltx.idempotency_key →
      ¬(v.lms_user_id = some learner_id ∧ v.content_key = some content_key ∧
        v.state = TransactionState.committed)) :
    (ledger1.saveTransaction tx').transactions.filter
      (redemptionPred learner_id content_key) ≠ [] ∧
    ∀ u ∈ (ledger1.saveTransaction tx').transactions.filter
      (redemptionPred learner_id content_key), u = tx' := by
  have hpred : redemptionPred learner_id content_key tx' = true :=
    (redemptionPred_iff _ _ _).mpr ⟨hlms, hck, hstate⟩
  constructor
  · apply List.ne_nil_of_mem (a := tx')
    rw [List.mem_filter]
    refine ⟨?_, hpred⟩
    unfold Ledger.saveTransaction
    simp only [List.mem_map]
    refine ⟨ltx, hmem, ?_⟩
    rw [hkeq]
    simp
  · intro u hu
    rw [List.mem_filter] at hu
    obtain ⟨humem, hupred⟩ := hu
    unfold Ledger.saveTransaction at humem
    simp only [List.mem_map] at humem
    obtain ⟨v, hv, hfv⟩ := humem
    by_cases hvk : (v.idempotency_key == tx'.idempotency_key) = true
    · rw [if_pos hvk] at hfv
      exact hfv.symm
    · rw [if_neg hvk] at hfv
      subst hfv
      exfalso
      have hvkey : v.idempotency_key ≠ ltx.idempotency_key := by
        rw [← hkeq]
        simpa using hvk
      exact hold v hv hvkey ((redemptionPred_iff _ _ _).mp hupred)

/-- When enrollment succeeds, the fulfillment step commits: it returns the
committed row (which keeps the pending row's learner, content and key) and
the ledger with that row saved. -/
lemma fulfillment_step_ok (learner_id : ℕ) (content_key : String)
    (enroll : ℕ → String → Transaction → Except String String)
    (created : Transaction × Ledger)
    (henroll : ∀ t, exceptOk (enroll learner_id content_key t) = true) :
    ∃ tx', redemption_fulfillment_step learner_id content_key enroll created =
        (Except.ok tx', created.2.saveTransaction tx') ∧
      tx'.state = TransactionState.committed ∧ tx'.lms_user_id = created.1.lms_user_id ∧
      tx'.content_key = created.1.content_key ∧
      tx'.idempotency_key = created.1.idempotency_key := by
  obtain ⟨r, hr⟩ := exists_ok_of_exceptOk _ (henroll created.1)
  obtain ⟨tx', hcommit, hstate, hlms, hck, hkeq⟩ :=
    commit_enroll_reference_ok created.2 created.1 r
  exact ⟨tx', by simp only [redemption_fulfillment_step, hr, hcommit], hstate, hlms, hck, hkeq⟩

/-- When enrollment raises, the fulfillment step re-raises that very error,
and — `rollback_transaction` being a no-op — the ledger stays as the create
step left it. -/
lemma fulfillment_step_error (learner_id : ℕ) (content_key : String)
    (enroll : ℕ → String → Transaction → Except String String)
    (created : Transaction × Ledger) (e : String)
    (hfail : ∀ t, enroll learner_id content_key t = Except.error e) :
    redemption_fulfillment_step learner_id content_key enroll created =
      (Except.error e, created.2) := by
  simp only [redemption_fulfillment_step, hfail created.1, Subsidy.rollback_transaction]

/-- Inversion: a successful fulfillment step can only have come from a
successful enrollment followed by the commit, so the returned row is the
committed version of the pending row. -/
lemma fulfillment_step_ok_inv (learner_id : ℕ) (content_key : String)
    (enroll : ℕ → String → Transaction → Except String String)
    (created : Transaction × Ledger) (tx : Transaction) (l2 : Ledger)
    (h : redemption_fulfillment_step learner_id content_key enroll created =
      (Except.ok tx, l2)) :
    tx.state = TransactionState.committed ∧ tx.lms_user_id = created.1.lms_user_id ∧
    tx.content_key = created.1.content_key ∧
    tx.idempotency_key = created.1.idempotency_key ∧
    l2 = created.2.saveTransaction tx := by
  rcases henr : enroll learner_id content_key created.1 with e | r
  · rw [redemption_fulfillment_step] at h
    simp only [henr] at h
    simp at h
  · obtain ⟨tx', hcommit, hstate, hlms, hck, hkeq⟩ :=
      commit_enroll_reference_ok created.2 created.1 r
    rw [redemption_fulfillment_step] at h
    simp only [henr, hcommit, Prod.mk.injEq, Except.ok.injEq] at h
    obtain ⟨htx, hl⟩ := h
    subst htx
    exact ⟨hstate, hlms, hck, hkeq, hl.symm⟩

/-- The pending row `ledger_create_transaction` inserts when the key is new. -/
def pending_row (key : IdempotencyKey) (q : ℤ) (learner_id : ℕ) (content_key : String)
    (policy : ℕ) : Transaction :=
  { idempotency_key := key, quantity := q, state := TransactionState.created,
    lms_user_id := some learner_id, content_key := some content_key,
    subsidy_access_policy_uuid := some policy, reference_id := none,
    reference_type := none }

lemma ledger_create_found (l : Ledger) (key : IdempotencyKey) (q : ℤ) (learner_id : ℕ)
    (content_key : String) (policy : ℕ) (tx0 : Transaction)
    (hfind : l.transactions.find? (fun t => t.idempotency_key == key) = some tx0) :
    ledger_create_transaction l key q learner_id content_key policy = (tx0, l) := by
  simp only [ledger_create_transaction, hfind]

lemma ledger_create_new (l : Ledger) (key : IdempotencyKey) (q : ℤ) (learner_id : ℕ)
    (content_key : String) (policy : ℕ)
    (hfind : l.transactions.find? (fun t => t.idempotency_key == key) = none) :
    ledger_create_transaction l key q learner_id content_key policy =
      (pending_row key q learner_id content_key policy,
        { l with transactions :=
            l.transactions ++ [pending_row key q learner_id content_key policy] }) := by
  simp only [ledger_create_transaction, hfind, pending_row]

lemma balance_append_noncommitted (l : Ledger) (t : Transaction)
    (h : t.state ≠ TransactionState.committed) :
    Ledger.balance { l with transactions := l.transactions ++ [t] } = l.balance := by
  have hb : (t.state == TransactionState.committed) = false := by simpa using h
  simp [Ledger.balance, List.filter_append, hb]

/-- What the create step guarantees when the idempotency key is the derived
one: the returned row carries the learner and content of the request (either
it is the freshly inserted pending row, or the ledger's key-consistency says
so for the fetched row), it is not committed, nothing in the post-create
ledger is a committed redemption of the pair, and the balance and ledger id
are untouched. -/
lemma created_row_spec (s : Subsidy) (learner_id : ℕ) (content_key : String)
    (policy : ℕ) (q : ℤ) (ltx : Transaction) (L1 : Ledger)
    (hk : s.ledger.keyConsistent)
    (h0 : ∀ t ∈ s.ledger.transactions,
      ¬(t.lms_user_id = some learner_id ∧ t.content_key = some content_key ∧
        t.state = TransactionState.committed))
    (hcr : ledger_create_transaction s.ledger
        (create_idempotency_key_for_transaction s.ledger.id q learner_id content_key policy)
        q learner_id content_key policy = (ltx, L1)) :
    ltx ∈ L1.transactions ∧ ltx.lms_user_id = some learner_id ∧
    ltx.content_key = some content_key ∧ ltx.state ≠ TransactionState.committed ∧
    (∀ v ∈ L1.transactions,
      ¬(v.lms_user_id = some learner_id ∧ v.content_key = some content_key ∧
        v.state = TransactionState.committed)) ∧
    L1.balance = s.ledger.balance ∧ L1.id = s.ledger.id := by
  rcases hfind : s.ledger.transactions.find?
      (fun t => t.idempotency_key ==
        create_idempotency_key_for_transaction s.ledger.id q learner_id content_key policy)
    with _ | tx0
  · rw [ledger_create_new _ _ _ _ _ _ hfind] at hcr
    simp only [Prod.mk.injEq] at hcr
    obtain ⟨hltx, hL1⟩ := hcr
    subst hltx
    subst hL1
    refine ⟨?_, rfl, rfl, by simp [pending_row], ?_, ?_, rfl⟩
    · simp [pending_row]
    · intro v hv hcontra
      simp only [List.mem_append, List.mem_singleton] at hv
      rcases hv with hv | hv
      · exact h0 v hv hcontra
      · subst hv
        simp [pending_row] at hcontra
    · exact balance_append_noncommitted s.ledger _ (by simp [pending_row])
  · rw [ledger_create_found _ _ _ _ _ _ _ hfind] at hcr
    simp only [Prod.mk.injEq] at hcr
    obtain ⟨hltx, hL1⟩ := hcr
    subst hltx
    subst hL1
    have hmem : tx0 ∈ s.ledger.transactions := List.mem_of_find?_eq_some hfind
    have hbeq := List.find?_some hfind
    have hkeyeq : tx0.idempotency_key =
        create_idempotency_key_for_transaction s.ledger.id q learner_id content_key policy :=
      by simpa using hbeq
    have hfields := hk tx0 hmem
    rw [keyMatchesFields, hkeyeq] at hfields
    simp only [create_idempotency_key_for_transaction, Bool.and_eq_true, beq_iff_eq]
      at hfields
    refine ⟨hmem, hfields.1, hfields.2, ?_, h0, rfl, rfl⟩
    intro hcommitted
    exact h0 tx0 hmem ⟨hfields.1, hfields.2, hcommitted⟩

/-- A successful `_create_redemption` with the derived idempotency key, on a
ledger with no committed redemption for the pair, yields a committed row for
the pair, and in the resulting ledger the committed-redemption filter for
the pair finds exactly that row. -/
lemma create_redemption_none_ok_spec (s : Subsidy) (learner_id : ℕ) (content_key : String)
    (subsidy_access_policy_uuid : ℕ)
    (enroll : ℕ → String → Transaction → Except String String)
    (tx : Transaction) (l2 : Ledger)
    (hk : s.ledger.keyConsistent)
    (h0 : s.get_redemption learner_id content_key = none)
    (hcr : s.create_redemption learner_id content_key subsidy_access_policy_uuid none enroll =
      (Except.ok tx, l2)) :
    tx.state = TransactionState.committed ∧ tx.lms_user_id = some learner_id ∧
    tx.content_key = some content_key ∧
    l2.transactions.filter (redemptionPred learner_id content_key) ≠ [] ∧
    ∀ u ∈ l2.transactions.filter (redemptionPred learner_id content_key), u = tx := by
  have h0' := (get_redemption_eq_none_iff s learner_id content_key).mp h0
  rcases hcreated : ledger_create_transaction s.ledger
      (create_idempotency_key_for_transaction s.ledger.id
        (-1 * s.price_for_content content_key) learner_id content_key
        subsidy_access_policy_uuid)
      (-1 * s.price_for_content content_key) learner_id content_key
      subsidy_access_policy_uuid with ⟨ltx, L1⟩
  obtain ⟨hmem, hlms0, hck0, _, hall, _, _⟩ :=
    created_row_spec s learner_id content_key subsidy_access_policy_uuid
      (-1 * s.price_for_content content_key) ltx L1 hk h0' hcreated
  have hstep : redemption_fulfillment_step learner_id content_key enroll (ltx, L1) =
      (Except.ok tx, l2) := by
    rw [← hcreated]
    exact hcr
  obtain ⟨hstate, hlms, hck, hkeq, hl2⟩ := fulfillment_step_ok_inv _ _ _ _ _ _ hstep
  have htxlms : tx.lms_user_id = some learner_id := hlms.trans hlms0
  have htxck : tx.content_key = some content_key := hck.trans hck0
  subst hl2
  have hold : ∀ v ∈ L1.transactions, v.idempotency_key ≠ ltx.idempotency_key →
      ¬(v.lms_user_id = some learner_id ∧ v.content_key = some content_key ∧
        v.state = TransactionState.committed) :=
    fun v hv _ => hall v hv
  obtain ⟨hne, hall2⟩ := saveTransaction_filter_spec L1 ltx tx learner_id content_key
    hmem hkeq htxlms htxck hstate hold
  exact ⟨hstate, htxlms, htxck, hne, hall2⟩

/-- A failing enrollment makes `_create_redemption` re-raise the error with
the post-create ledger (the pending row is not removed: rollback is a
no-op). -/
lemma create_redemption_none_error_spec (s : Subsidy) (learner_id : ℕ) (content_key : String)
    (subsidy_access_policy_uuid : ℕ)
    (enroll : ℕ → String → Transaction → Except String String)
    (e : String) (ltx : Transaction) (L1 : Ledger)
    (hfail : ∀ t, enroll learner_id content_key t = Except.error e)
    (hcreated : ledger_create_transaction s.ledger
        (create_idempotency_key_for_transaction s.ledger.id
          (-1 * s.price_for_content content_key) learner_id content_key
          subsidy_access_policy_uuid)
        (-1 * s.price_for_content content_key) learner_id content_key
        subsidy_access_policy_uuid = (ltx, L1)) :
    s.create_redemption learner_id content_key subsidy_access_policy_uuid none enroll =
      (Except.error e, L1) := by
  have hstep : redemption_fulfillment_step learner_id content_key enroll (ltx, L1) =
      (Except.error e, L1) :=
    fulfillment_step_error learner_id content_key enroll (ltx, L1) e hfail
  rw [← hcreated] at hstep
  exact hstep

/-- With no existing redemption, a redeemable balance and an enrollment
client that succeeds, `redeem` returns a committed transaction with
`created=True`. -/
lemma redeem_success_exists (s : Subsidy) (learner_id : ℕ) (content_key : String)
    (subsidy_access_policy_uuid : ℕ) (idempotency_key : Option IdempotencyKey)
    (enroll : ℕ → String → Transaction → Except String String)
    (h0 : s.get_redemption learner_id content_key = none)
    (h1 : (s.is_redeemable content_key).1 = true)
    (henroll : ∀ t, exceptOk (enroll learner_id content_key t) = true) :
    ∃ tx L2, s.redeem learner_id content_key subsidy_access_policy_uuid idempotency_key
        enroll = (Except.ok (some tx, true), L2) ∧
      tx.state = TransactionState.committed := by
  have hcond : ¬((s.is_redeemable content_key).1 = false) := by rw [h1]; simp
  obtain ⟨tx', hstep, hstate, _, _, _⟩ := fulfillment_step_ok learner_id content_key enroll
    (ledger_create_transaction s.ledger
      (idempotency_key.getD (create_idempotency_key_for_transaction s.ledger.id
        (-1 * s.price_for_content content_key) learner_id content_key
        subsidy_access_policy_uuid))
      (-1 * s.price_for_content content_key) learner_id content_key
      subsidy_access_policy_uuid) henroll
  have hcr : s.create_redemption learner_id content_key subsidy_access_policy_uuid
      idempotency_key enroll =
      (Except.ok tx', (ledger_create_transaction s.ledger
        (idempotency_key.getD (create_idempotency_key_for_transaction s.ledger.id
          (-1 * s.price_for_content content_key) learner_id content_key
          subsidy_access_policy_uuid))
        (-1 * s.price_for_content content_key) learner_id content_key
        subsidy_access_policy_uuid).2.saveTransaction tx') := hstep
  refine ⟨tx', (ledger_create_transaction s.ledger
      (idempotency_key.getD (create_idempotency_key_for_transaction s.ledger.id
        (-1 * s.price_for_content content_key) learner_id content_key
        subsidy_access_policy_uuid))
      (-1 * s.price_for_content content_key) learner_id content_key
      subsidy_access_policy_uuid).2.saveTransaction tx', ?_, hstate⟩
  unfold Subsidy.redeem
  simp only [h0]
  rw [if_neg hcond]
  simp only [hcr]

/-! ## Claim theorems: idempotence, failure handling, validity window -/

/-- C1: when a committed transaction already exists for the
(subsidy, learner, content) triple, `redeem` returns it with `created=False`
and an unchanged ledger; and a `redeem` call that created a transaction
(`created=True`) yields a committed row that a second call with identical
arguments returns as-is with `created=False` and no further ledger change.
The `keyConsistent` hypothesis is the ledger invariant that rows carrying a
derived idempotency key have the learner/content fields the key was derived
from — which holds for every row the engine itself creates. -/
theorem redeem_idempotent (s : Subsidy) (learner_id : ℕ) (content_key : String)
    (subsidy_access_policy_uuid : ℕ)
    (enroll : ℕ → String → Transaction → Except String String)
    (hk : s.ledger.keyConsistent) :
    (∀ t, s.get_redemption learner_id content_key = some t →
      s.redeem learner_id content_key subsidy_access_policy_uuid none enroll =
        (Except.ok (some t, false), s.ledger)) ∧
    (∀ tx l2, s.redeem learner_id content_key subsidy_access_policy_uuid none enroll =
        (Except.ok (some tx, true), l2) →
      tx.state = TransactionState.committed ∧
      Subsidy.redeem { s with ledger := l2 } learner_id content_key
        subsidy_access_policy_uuid none enroll = (Except.ok (some tx, false), l2)) := by
  constructor
  · intro t h
    simp [Subsidy.redeem, h]
  · intro tx l2 hred
    rcases hget : s.get_redemption learner_id content_key with _ | existing
    · by_cases hcond : (s.is_redeemable content_key).1 = false
      · unfold Subsidy.redeem at hred
        simp only [hget] at hred
        rw [if_pos hcond] at hred
        simp at hred
      · unfold Subsidy.redeem at hred
        simp only [hget] at hred
        rw [if_neg hcond] at hred
        rcases hcr : s.create_redemption learner_id content_key
            subsidy_access_policy_uuid none enroll with ⟨res1, resL⟩
        simp only [hcr] at hred
        rcases res1 with exc | txx
        · simp at hred
        · simp at hred
          obtain ⟨htx, hL⟩ := hred
          subst htx
          subst hL
          obtain ⟨hstate, _, _, hne, hall⟩ :=
            create_redemption_none_ok_spec s learner_id content_key
              subsidy_access_policy_uuid enroll txx resL hk hget hcr
          have hget2 : Subsidy.get_redemption { s with ledger := resL }
              learner_id content_key = some txx := by
            unfold Subsidy.get_redemption
            rw [get_redemption_filter_eq]
            exact head?_eq_of_ne_nil_of_all _ _ hne hall
          exact ⟨hstate, by simp [Subsidy.redeem, hget2]⟩
    · unfold Subsidy.redeem at hred
      simp only [hget] at hred
      simp at hred

/-- The committed row the demo redemption produces. -/
def demoFreshCommittedTx : Transaction :=
  { idempotency_key := IdempotencyKey.derived 1 (-14900) 1 "course-v1:edX+DemoX" 7
    quantity := -14900
    state := TransactionState.committed
    lms_user_id := some 1
    content_key := some "course-v1:edX+DemoX"
    subsidy_access_policy_uuid := some 7
    reference_id := some "fulfillment-9"
    reference_type := some OCM_ENROLLMENT_REFERENCE_TYPE }

/-- The demo ledger after the successful redemption. -/
def demoLedgerAfter : Ledger := { id := 1, transactions := [demoDeposit, demoFreshCommittedTx] }

/-- C1 witness: a concrete first call creates and commits; the second call
with identical arguments returns the same committed row with
`created=False`. -/
theorem redeem_idempotent_witness :
    demoFreshCommittedTx.state = TransactionState.committed ∧
    Subsidy.redeem { demoSubsidy with ledger := demoLedgerAfter } 1 "course-v1:edX+DemoX"
      7 none demoOkEnroll = (Except.ok (some demoFreshCommittedTx, false), demoLedgerAfter) :=
  (redeem_idempotent demoSubsidy 1 "course-v1:edX+DemoX" 7 demoOkEnroll (by decide)).2
    demoFreshCommittedTx demoLedgerAfter (by rfl)

/-- C2 (amended): when the enrollment call raises during `redeem`, the
engine invokes `rollback_transaction` — which in this code is a no-op that
leaves the pending row in place — and re-raises the original error;
afterwards no committed transaction exists for the (subsidy, learner,
content) triple, and a subsequent retry with the same inputs obtains the
existing pending transaction through the idempotency-key upsert (rather
than creating a new row) and can proceed to create and commit the
redemption — the failed attempt does not block future attempts. -/
theorem redeem_enroll_failure_rollback (s : Subsidy) (learner_id : ℕ)
    (content_key : String) (subsidy_access_policy_uuid : ℕ) (e : String)
    (enroll enroll2 : ℕ → String → Transaction → Except String String)
    (hk : s.ledger.keyConsistent)
    (h0 : s.get_redemption learner_id content_key = none)
    (h1 : (s.is_redeemable content_key).1 = true)
    (hfail : ∀ t, enroll learner_id content_key t = Except.error e)
    (henroll2 : ∀ t, exceptOk (enroll2 learner_id content_key t) = true) :
    ∃ L1, s.redeem learner_id content_key subsidy_access_policy_uuid none enroll =
        (Except.error e, L1) ∧
      Subsidy.get_redemption { s with ledger := L1 } learner_id content_key = none ∧
      (∃ t ∈ L1.transactions, t.lms_user_id = some learner_id ∧
        t.content_key = some content_key ∧ t.state ≠ TransactionState.committed) ∧
      (∃ tx L2, Subsidy.redeem { s with ledger := L1 } learner_id content_key
          subsidy_access_policy_uuid none enroll2 = (Except.ok (some tx, true), L2) ∧
        tx.state = TransactionState.committed) := by
  have h0' := (get_redemption_eq_none_iff s learner_id content_key).mp h0
  rcases hcreated : ledger_create_transaction s.ledger
      (create_idempotency_key_for_transaction s.ledger.id
        (-1 * s.price_for_content content_key) learner_id content_key
        subsidy_access_policy_uuid)
      (-1 * s.price_for_content content_key) learner_id content_key
      subsidy_access_policy_uuid with ⟨ltx, L1⟩
  obtain ⟨hmem, hlms, hck, hstate, hall, hbal, _⟩ :=
    created_row_spec s learner_id content_key subsidy_access_policy_uuid
      (-1 * s.price_for_content content_key) ltx L1 hk h0' hcreated
  have hcr : s.create_redemption learner_id content_key subsidy_access_policy_uuid
      none enroll = (Except.error e, L1) :=
    create_redemption_none_error_spec s learner_id content_key
      subsidy_access_policy_uuid enroll e ltx L1 hfail hcreated
  have hcond : ¬((s.is_redeemable content_key).1 = false) := by rw [h1]; simp
  have hget1 : Subsidy.get_redemption { s with ledger := L1 } learner_id content_key =
      none := by
    rw [get_redemption_eq_none_iff]
    exact hall
  have hisred : ({ s with ledger := L1 } : Subsidy).is_redeemable content_key =
      s.is_redeemable content_key := by
    show (decide (L1.balance ≥ price_from_listed (s.get_course_price content_key)),
        price_from_listed (s.get_course_price content_key)) =
      (decide (s.ledger.balance ≥ price_from_listed (s.get_course_price content_key)),
        price_from_listed (s.get_course_price content_key))
    rw [hbal]
  refine ⟨L1, ?_, hget1, ⟨ltx, hmem, hlms, hck, hstate⟩, ?_⟩
  · unfold Subsidy.redeem
    simp only [h0]
    rw [if_neg hcond]
    simp only [hcr]
  · have h1' : (({ s with ledger := L1 } : Subsidy).is_redeemable content_key).1 =
        true := by rw [hisred]; exact h1
    exact redeem_success_exists { s with ledger := L1 } learner_id content_key
      subsidy_access_policy_uuid none enroll2 hget1 h1' henroll2

/-- C2 witness: a concrete failing enrollment followed by a succeeding
retry. -/
theorem redeem_enroll_failure_rollback_witness :
    ∃ L1, demoSubsidy.redeem 1 "course-v1:edX+DemoX" 7 none demoFailEnroll =
        (Except.error "enrollment failed", L1) ∧
      Subsidy.get_redemption { demoSubsidy with ledger := L1 } 1 "course-v1:edX+DemoX" =
        none ∧
      (∃ t ∈ L1.transactions, t.lms_user_id = some 1 ∧
        t.content_key = some "course-v1:edX+DemoX" ∧
        t.state ≠ TransactionState.committed) ∧
      (∃ tx L2, Subsidy.redeem { demoSubsidy with ledger := L1 } 1 "course-v1:edX+DemoX"
          7 none demoOkEnroll = (Except.ok (some tx, true), L2) ∧
        tx.state = TransactionState.committed) :=
  redeem_enroll_failure_rollback demoSubsidy 1 "course-v1:edX+DemoX" 7
    "enrollment failed" demoFailEnroll demoOkEnroll (by decide) (by rfl) (by decide)
    (fun _ => rfl) (fun _ => rfl)

/-- C2 counterexample: the claim says rollback voids/deletes the pending
row and that a retry "creates a new pending transaction"; in the code
`rollback_transaction` is `pass`, so after a failed enrollment the ledger
still contains the pending (state `created`) row, and the retry — via the
idempotency-key upsert — adds no new row at all (the transaction count is
unchanged). -/
theorem rollback_is_noop_pending_row_remains :
    ((demoSubsidy.redeem 1 "course-v1:edX+DemoX" 7 none demoFailEnroll).2.transactions.filter
      (fun t => t.state == TransactionState.created)).length = 1 ∧
    (Subsidy.redeem { demoSubsidy with
        ledger := (demoSubsidy.redeem 1 "course-v1:edX+DemoX" 7 none demoFailEnroll).2 }
      1 "course-v1:edX+DemoX" 7 none demoOkEnroll).2.transactions.length =
    (demoSubsidy.redeem 1 "course-v1:edX+DemoX" 7 none demoFailEnroll).2.transactions.length := by
  constructor <;> rfl

/-- C10: neither `is_redeemable` nor `redeem` consults the subsidy's
validity window — replacing `active_datetime`/`expiration_datetime` by any
values (including a window excluding the present) changes neither result —
and whenever the balance covers the price and no committed redemption
exists, `redeem` proceeds to create and commit a transaction regardless of
those fields.  There is no notion of "current time" anywhere in the
embedded read or write path: the functions take no clock input at all. -/
theorem redeem_ignores_validity_window (s : Subsidy) (a e : Option ℤ) (learner_id : ℕ)
    (content_key : String) (subsidy_access_policy_uuid : ℕ)
    (idempotency_key : Option IdempotencyKey)
    (enroll : ℕ → String → Transaction → Except String String) :
    Subsidy.is_redeemable { s with active_datetime := a, expiration_datetime := e }
      content_key = s.is_redeemable content_key ∧
    Subsidy.redeem { s with active_datetime := a, expiration_datetime := e } learner_id
      content_key subsidy_access_policy_uuid idempotency_key enroll =
      s.redeem learner_id content_key subsidy_access_policy_uuid idempotency_key enroll ∧
    (s.get_redemption learner_id content_key = none →
      (s.is_redeemable content_key).1 = true →
      (∀ t, exceptOk (enroll learner_id content_key t) = true) →
      ∃ tx L2, Subsidy.redeem { s with active_datetime := a, expiration_datetime := e }
          learner_id content_key subsidy_access_policy_uuid idempotency_key enroll =
        (Except.ok (some tx, true), L2) ∧ tx.state = TransactionState.committed) := by
  refine ⟨rfl, rfl, fun h0 h1 henroll => ?_⟩
  exact redeem_success_exists
    { s with active_datetime := a, expiration_datetime := e } learner_id content_key
    subsidy_access_policy_uuid idempotency_key enroll h0 h1 henroll

/-- C10 witness: a window that cannot contain the present (active after
expiration) still lets the demo redemption create and commit. -/
theorem redeem_ignores_validity_window_witness :
    ∃ tx L2, Subsidy.redeem
        { demoSubsidy with active_datetime := some 999999, expiration_datetime := some 0 }
        1 "course-v1:edX+DemoX" 7 none demoOkEnroll =
      (Except.ok (some tx, true), L2) ∧ tx.state = TransactionState.committed :=
  (redeem_ignores_validity_window demoSubsidy (some 999999) (some 0) 1
    "course-v1:edX+DemoX" 7 none demoOkEnroll).2.2 (by rfl) (by decide) (fun _ => rfl)

/-! ## The content-metadata read path
(`enterprise_subsidy/apps/api/v1/views/content_metadata.py`, `get`). -/

/-- `EXECUTIVE_EDUCATION_MODE` from `subsidy/constants.py` (the constants
module is not under the sources; the value appears in the repository's
tests). -/
def EXECUTIVE_EDUCATION_MODE : String := "paid-executive-education"

/-- `EDX_VERIFIED_COURSE_MODE` from `subsidy/constants.py`. -/
def EDX_VERIFIED_COURSE_MODE : String := "verified"

/-- `EDX_PRODUCT_SOURCE` from `subsidy/constants.py`. -/
def EDX_PRODUCT_SOURCE : String := "edX"

/-- The `product_source` object of the content-metadata payload; the view
only reads its `name`. -/
structure ProductSource where
  name : Option String
deriving DecidableEq, Repr

/-- The slice of the content-metadata payload the view reads. -/
structure ContentData where
  uuid : Option ℕ
  key : Option String
  product_source : Option ProductSource
deriving DecidableEq, Repr

/-- A transport error from the catalog service (`requests.HTTPError`):
status code and detail text. -/
structure CatalogHttpError where
  status_code : ℕ
  detail : String
deriving DecidableEq, Repr

/-- The response body: the success payload
`{content_uuid, content_key, source, content_price}` or an error message. -/
inductive ResponseBody
  | payload (content_uuid : Option ℕ) (content_key : Option String)
      (source : Option String) (content_price : Decimal)
  | message (text : String)
deriving DecidableEq, Repr

/-- Mode selection (`content_metadata.py`, lines 101-106): a truthy
`product_source` selects the paid-executive-education mode and its name;
otherwise the source is `edX` and the mode is `verified`. -/
def resolved_source_mode (content_data : ContentData) : Option String × String :=
  match content_data.product_source with
  | some source_dict => (source_dict.name, EXECUTIVE_EDUCATION_MODE)
  | none => (some EDX_PRODUCT_SOURCE, EDX_VERIFIED_COURSE_MODE)

/-- Python truthiness of the optional price (`if not content_price:`):
`None` and a zero price are falsy. -/
def truthyPrice : Option Decimal → Bool
  | none => false
  | some p => decide (p.num ≠ 0)

/-- `ContentMetadataViewSet.get` (`content_metadata.py`, lines 95-123):
fetch the metadata (`fetch` is the outcome of the catalog call, an
HTTP error or the payload); resolve source and mode; ask the client for the
mode's price (`price_for_content_client` models the external
`catalog_client.price_for_content`, returning the mode-matching price entry
or `None` when the metadata lacks one); answer 404 when the price is falsy,
404 for an HTTP 404 from the catalog, the original status code with the
error detail for any other transport error, and 200 with the payload
otherwise. -/
def content_metadata_get (fetch : Except CatalogHttpError ContentData)
    (price_for_content_client : ContentData → String → Option Decimal) :
    ResponseBody × ℕ :=
  match fetch with
  | Except.error exc =>
    if exc.status_code = 404 then (ResponseBody.message "Content not found", 404)
    else
      (ResponseBody.message
        ("Failed to fetch data from catalog service with exc: " ++ exc.detail),
        exc.status_code)
  | Except.ok content_data =>
    let cs := resolved_source_mode content_data
    let content_price := price_for_content_client content_data cs.2
    if truthyPrice content_price = false then
      (ResponseBody.message "Could not find course price in content data payload", 404)
    else
      (ResponseBody.payload content_data.uuid content_data.key cs.1
        (content_price.getD ⟨0, 1⟩), 200)

/-- C8: the read path answers 404 exactly when the catalog returned 404 for
the content/customer pair or the metadata lacks a price entry matching the
resolved mode (both the same externally observable status), and any other
transport error is surfaced with its original status code and detail.  The
hypothesis says the modelled client never reports a zero price for an entry
it does find — listed prices of redeemable modes are positive. -/
theorem content_metadata_get_404_contract (fetch : Except CatalogHttpError ContentData)
    (price_for_content_client : ContentData → String → Option Decimal)
    (hpos : ∀ d m p, price_for_content_client d m = some p → p.num ≠ 0) :
    ((content_metadata_get fetch price_for_content_client).2 = 404 ↔
      (∃ exc, fetch = Except.error exc ∧ exc.status_code = 404) ∨
      (∃ d, fetch = Except.ok d ∧
        price_for_content_client d (resolved_source_mode d).2 = none)) ∧
    (∀ exc, fetch = Except.error exc → exc.status_code ≠ 404 →
      content_metadata_get fetch price_for_content_client =
        (ResponseBody.message
          ("Failed to fetch data from catalog service with exc: " ++ exc.detail),
          exc.status_code)) := by
  cases fetch with
  | error exc =>
    by_cases h404 : exc.status_code = 404
    · constructor
      · simp only [content_metadata_get, if_pos h404]
        constructor
        · intro _
          exact Or.inl ⟨exc, rfl, h404⟩
        · intro _
          trivial
      · intro exc' heq hne
        obtain rfl : exc = exc' := by injection heq
        exact absurd h404 hne
    · constructor
      · simp only [content_metadata_get, if_neg h404]
        constructor
        · intro h
          exact absurd h h404
        · rintro (⟨exc', heq, h4⟩ | ⟨d, heq, _⟩)
          · obtain rfl : exc = exc' := by injection heq
            exact absurd h4 h404
          · exact Except.noConfusion heq
      · intro exc' heq _
        obtain rfl : exc = exc' := by injection heq
        simp only [content_metadata_get, if_neg h404]
  | ok d =>
    rcases hp : price_for_content_client d (resolved_source_mode d).2 with _ | pd
    · constructor
      · simp only [content_metadata_get, hp, truthyPrice, if_pos]
        constructor
        · intro _
          exact Or.inr ⟨d, rfl, hp⟩
        · intro _
          trivial
      · intro exc heq
        exact Except.noConfusion heq
    · have hnum : pd.num ≠ 0 := hpos d (resolved_source_mode d).2 pd hp
      have htruthy : truthyPrice (some pd) = true := by
        simp [truthyPrice, hnum]
      constructor
      · simp only [content_metadata_get, hp]
        rw [if_neg (by rw [htruthy]; simp)]
        constructor
        · intro h
          simp at h
        · rintro (⟨exc', heq, _⟩ | ⟨d', heq, hnone⟩)
          · exact Except.noConfusion heq
          · obtain rfl : d = d' := by injection heq
            rw [hp] at hnone
            exact Option.noConfusion hnone
      · intro exc heq
        exact Except.noConfusion heq

/-- A demo content payload with no `product_source` (edX / verified mode). -/
def demoContentData : ContentData :=
  { uuid := some 11, key := some "edX+DemoX", product_source := none }

/-- C8 witness: metadata with no price entry for the resolved mode answers
404. -/
theorem content_metadata_get_404_contract_witness :
    (content_metadata_get (Except.ok demoContentData) (fun _ _ => none)).2 = 404 :=
  ((content_metadata_get_404_contract (Except.ok demoContentData) (fun _ _ => none)
      (fun _ _ _ h => Option.noConfusion h)).1).mpr
    (Or.inr ⟨demoContentData, rfl, rfl⟩)
